import Mathlib

/-!
Shallow embedding of `src/uboot_env_unprotect.c` (libubootenv).

A C string is modelled as the `List Char` of its characters before the
terminating NUL.  Reading position `i` of such a string is in bounds for
`i < length` (an ordinary character) and for `i = length` (the NUL
terminator itself); any read beyond that is an out-of-bounds access of the
string, modelled by `Option.none` and propagated.

The sysfs control file `force_ro` is modelled by `SysFile`: whether
`open(path, O_RDWR)` / `open(path, O_WRONLY)` succeed, whether `read(fd,_,1)`
returns exactly one byte, and the current control byte.  Writing one byte to
the (virtual, one-byte) sysfs attribute replaces that byte.  Each operation
additionally returns an `IOTrace` recording how many `open` calls it issued
and the bytes it passed to `write`, so that "no write was attempted" is a
provable statement.
-/

/-- The NUL terminator byte of a C string. -/
def NUL : Char := Char.ofNat 0

/-- Read character `i` of the C string whose pre-NUL characters are `s`:
`some` ordinary character for `i < s.length`, the terminator for
`i = s.length`, and `none` (out of bounds) past it. -/
def cRead (s : List Char) (i : Nat) : Option Char :=
  if h : i < s.length then some (s.get ⟨i, h⟩)
  else if i = s.length then some NUL
  else none

/-- `strncmp(s + off, lit, lit.length) == 0` for a literal `lit` containing
no NUL: compares one character at a time, stopping at the first mismatch
(as `strncmp` does), so later positions are only read when all earlier ones
matched.  `some true` = equal, `some false` = mismatch, `none` = a read past
the end of `s` (including its terminator) happened. -/
def strncmpLit (s : List Char) (off : Nat) : List Char → Option Bool
  | [] => some true
  | c :: cs =>
    match cRead s off with
    | none => none
    | some d => if d = c then strncmpLit s (off + 1) cs else some false

/-- The check `'0' <= *(s+i) && *(s+i) <= '9'` from `mmcblkboot_create`,
with the same out-of-bounds tracking as `strncmpLit`. -/
def isDigitChk (s : List Char) (i : Nat) : Option Bool :=
  match cRead s i with
  | none => none
  | some c => some (decide (48 ≤ c.toNat ∧ c.toNat ≤ 57))

/-- `static const char c_sys_path_1[] = "/sys/class/block/";` -/
def c_sys_path_1 : List Char :=
  ['/','s','y','s','/','c','l','a','s','s','/','b','l','o','c','k','/']

/-- `static const char c_sys_path_2[] = "/force_ro";` -/
def c_sys_path_2 : List Char := ['/','f','o','r','c','e','_','r','o']

/-- `static const char c_dev_name_1[] = "mmcblk";` -/
def c_dev_name_1 : List Char := ['m','m','c','b','l','k']

/-- `static const char c_dev_name_2[] = "boot";` -/
def c_dev_name_2 : List Char := ['b','o','o','t']

/-- The literal `"/dev/"` compared against by `mmcblkboot_create`. -/
def c_dev_node : List Char := ['/','d','e','v','/']

/-- `#define SYSFS_PATH_MAX 120` -/
def SYSFS_PATH_MAX : Nat := 120

/-- The Linux `ENOMEM` errno value, used as `-ENOMEM` by `mmcblkboot_create`. -/
def ENOMEM : Int := 12

/-- Sequencing of the early-return checks of `mmcblkboot_create`: a failed
check returns 0 immediately (`some false`), an out-of-bounds read (`none`)
propagates, and only a passed check reaches the next one. -/
def mseq (o r : Option Bool) : Option Bool :=
  match o with
  | none => none
  | some false => some false
  | some true => r

/-- The matching part of `mmcblkboot_create` (uboot_env_unprotect.c lines
104-127), with the source's exact offsets and order:
`strncmp("/dev/", devname, 5)`, then `strncmp(devfile, c_dev_name_1, 6)`,
then `strncmp(devfile + 7, c_dev_name_2, 4)` (note: `devfile + 7` is
`devname + 12`, read before the digit position 6 is checked), then the
digit checks at `devfile + 6` and `devfile + 11`. -/
def mmcblkboot_match (devname : List Char) : Option Bool :=
  mseq (strncmpLit devname 0 c_dev_node)
    (mseq (strncmpLit devname 5 c_dev_name_1)
      (mseq (strncmpLit devname 12 c_dev_name_2)
        (mseq (isDigitChk devname 11) (isDigitChk devname 16))))

/-- The two function pointers a `env_protect_t` can hold: NULL (from
`calloc`) or the `mmcblkboot_*` implementations installed by
`mmcblkboot_create`. -/
inductive FnPtr
  | null
  | mmcblkbootFn
deriving DecidableEq

/-- `struct env_protect_mmcblkboot`: the embedded parent `env_protect_t`
(its two function-pointer fields `unprotect` / `reprotect`), the
`sysfs_path` buffer, and the archived byte `current_prot`
(`char`, zero-initialised by `calloc`). -/
structure env_protect_mmcblkboot_t where
  unprotect : FnPtr
  reprotect : FnPtr
  sysfs_path : List Char
  current_prot : Nat
deriving DecidableEq

/-- The state of the `force_ro` control file and its transport: whether the
two kinds of `open` succeed, whether `read` delivers exactly one byte, and
the control byte currently stored. -/
structure SysFile where
  canOpenRW : Bool
  canOpenW : Bool
  readOk : Bool
  byte : Nat
deriving DecidableEq

/-- A record of the syscalls an operation attempted: how many `open` calls
it made and the bytes it passed to `write`, in order. -/
structure IOTrace where
  opens : Nat
  writes : List Nat
deriving DecidableEq

/-- Result of running one operation: the protector object afterwards, the
control file afterwards, and the I/O trace. -/
structure OpResult where
  prot : env_protect_mmcblkboot_t
  file : SysFile
  trace : IOTrace
deriving DecidableEq

/-- `const char c_unprot_char = '0';` (as a byte). -/
def c_unprot_char : Nat := 48

/-- `const char c_prot_char = '1';` (as a byte). -/
def c_prot_char : Nat := 49

/-- `mmcblkboot_unprotect` (lines 54-74): open the sysfs path read-write
(silent return on failure), read one byte; if exactly one byte was read and
it is `'0'` or `'1'`, archive it in `current_prot` and write `'0'`;
otherwise set `current_prot = 0` (undefined state) and write nothing. -/
def mmcblkboot_unprotect (p : env_protect_mmcblkboot_t) (f : SysFile) : OpResult :=
  if f.canOpenRW = false then ⟨p, f, ⟨1, []⟩⟩
  else if f.readOk = true ∧ (f.byte = c_unprot_char ∨ f.byte = c_prot_char) then
    ⟨{ p with current_prot := f.byte }, { f with byte := c_unprot_char },
      ⟨1, [c_unprot_char]⟩⟩
  else ⟨{ p with current_prot := 0 }, f, ⟨1, []⟩⟩

/-- `mmcblkboot_reprotect` (lines 77-90): only if `current_prot != 0`, open
the sysfs path write-only (silent return on failure) and write the archived
byte back. -/
def mmcblkboot_reprotect (p : env_protect_mmcblkboot_t) (f : SysFile) : OpResult :=
  if p.current_prot ≠ 0 then
    if f.canOpenW = false then ⟨p, f, ⟨1, []⟩⟩
    else ⟨p, { f with byte := p.current_prot }, ⟨1, [p.current_prot]⟩⟩
  else ⟨p, f, ⟨0, []⟩⟩

/-- `env_unprotect` (lines 156-160): dispatch through the `unprotect`
function pointer if it is non-NULL. -/
def env_unprotect (p : env_protect_mmcblkboot_t) (f : SysFile) : OpResult :=
  match p.unprotect with
  | FnPtr.null => ⟨p, f, ⟨0, []⟩⟩
  | FnPtr.mmcblkbootFn => mmcblkboot_unprotect p f

/-- `env_reprotect` (lines 162-166): dispatch through the `reprotect`
function pointer if it is non-NULL. -/
def env_reprotect (p : env_protect_mmcblkboot_t) (f : SysFile) : OpResult :=
  match p.reprotect with
  | FnPtr.null => ⟨p, f, ⟨0, []⟩⟩
  | FnPtr.mmcblkbootFn => mmcblkboot_reprotect p f

/-- The untruncated concatenation `c_sys_path_1 ++ devfile ++ c_sys_path_2`
(where `devfile = devname + 5`). -/
def full_sysfs_path (devname : List Char) : List Char :=
  c_sys_path_1 ++ devname.drop 5 ++ c_sys_path_2

/-- What `snprintf(p_obj->sysfs_path, SYSFS_PATH_MAX, "%s%s%s", ...)`
actually stores: at most `SYSFS_PATH_MAX - 1` characters plus NUL. -/
def stored_sysfs_path (devname : List Char) : List Char :=
  (full_sysfs_path devname).take (SYSFS_PATH_MAX - 1)

/-- `mmcblkboot_create` (lines 104-141): the matching checks, then `calloc`
(modelled by the `allocOk` oracle; failure returns `-ENOMEM`), then
`snprintf` of the sysfs path, then `access(path, W_OK)` (modelled by the
`writable` oracle; failure frees and returns 0), then installation of the
two function pointers and return 1.  `none` means the matching performed an
out-of-bounds read of `devname`. -/
def mmcblkboot_create (devname : List Char) (writable : List Char → Bool)
    (allocOk : Bool) : Option (Int × Option env_protect_mmcblkboot_t) :=
  match mmcblkboot_match devname with
  | none => none
  | some false => some (0, none)
  | some true =>
    if allocOk = false then some (-ENOMEM, none)
    else if writable (stored_sysfs_path devname) = false then some (0, none)
    else some (1, some ⟨FnPtr.mmcblkbootFn, FnPtr.mmcblkbootFn,
      stored_sysfs_path devname, 0⟩)

/-- `env_protect_probe` (lines 149-153): try the single registered strategy. -/
def env_protect_probe (devname : List Char) (writable : List Char → Bool)
    (allocOk : Bool) : Option (Int × Option env_protect_mmcblkboot_t) :=
  mmcblkboot_create devname writable allocOk

/-- Boolean ASCII-digit test on a character, as the source's range check. -/
def isDigitB (c : Char) : Bool := decide (48 ≤ c.toNat ∧ c.toNat ≤ 57)

/-- The set of device names the source's matcher accepts, written as
point-wise conditions on the string: the 17 fixed positions
`/dev/mmcblk<digit>boot<digit>` must hold, and nothing beyond position 16
is constrained (trailing characters are never examined). -/
def accepts_pattern (s : List Char) : Bool :=
  decide (cRead s 0 = some '/') && decide (cRead s 1 = some 'd') &&
  decide (cRead s 2 = some 'e') && decide (cRead s 3 = some 'v') &&
  decide (cRead s 4 = some '/') &&
  decide (cRead s 5 = some 'm') && decide (cRead s 6 = some 'm') &&
  decide (cRead s 7 = some 'c') && decide (cRead s 8 = some 'b') &&
  decide (cRead s 9 = some 'l') && decide (cRead s 10 = some 'k') &&
  decide (isDigitChk s 11 = some true) &&
  decide (cRead s 12 = some 'b') && decide (cRead s 13 = some 'o') &&
  decide (cRead s 14 = some 'o') && decide (cRead s 15 = some 't') &&
  decide (isDigitChk s 16 = some true)

/-- The spec's rigid fixed pattern: the whole device name is exactly
`"/dev/" ++ "mmcblk" ++ <one digit> ++ "boot" ++ <one digit>` — 17
characters, nothing before, between or after. -/
def spec_fixed_pattern (s : List Char) : Bool :=
  match s with
  | [a0,a1,a2,a3,a4,a5,a6,a7,a8,a9,a10,d1,b0,b1,b2,b3,d2] =>
    decide ([a0,a1,a2,a3,a4,a5,a6,a7,a8,a9,a10] =
      ['/','d','e','v','/','m','m','c','b','l','k']) &&
    decide ([b0,b1,b2,b3] = ['b','o','o','t']) && isDigitB d1 && isDigitB d2
  | _ => false

/-- The invariant claimed for the archived byte: never captured / unknown
(`0`), the unprotected sentinel `'0'`, or the protected sentinel `'1'`. -/
def ProtInv (p : env_protect_mmcblkboot_t) : Prop :=
  p.current_prot = 0 ∨ p.current_prot = c_unprot_char ∨
    p.current_prot = c_prot_char

/-- One caller-issued operation on a protector, with the control-file /
transport state at the moment of the call. -/
inductive EnvOp
  | unprot (f : SysFile)
  | reprot (f : SysFile)

/-- Run a sequence of caller-issued operations, threading the protector
object through (each call sees its own control-file state). -/
def runOps (p : env_protect_mmcblkboot_t) : List EnvOp → env_protect_mmcblkboot_t
  | [] => p
  | (EnvOp.unprot f) :: rest => runOps (env_unprotect p f).prot rest
  | (EnvOp.reprot f) :: rest => runOps (env_reprotect p f).prot rest

/-- `"/dev/mmcblk"`: the input on which the matcher's `boot` comparison
reads past the string's terminating NUL. -/
def dev_mmcblk_chars : List Char := ['/','d','e','v','/','m','m','c','b','l','k']

/-- `"/dev/mmcblk0boot1"`, the spec's end-to-end example device path. -/
def dev_ok : List Char :=
  ['/','d','e','v','/','m','m','c','b','l','k','0','b','o','o','t','1']

/-- `"/dev/mmcblk0boot12"`: two digits at the partition-index position. -/
def dev_boot12 : List Char := dev_ok ++ ['2']

/-- A matching device name long enough that the sysfs path is truncated by
`snprintf` (bare name 94 chars, full concatenation 120 > 119). -/
def dev_long : List Char := dev_ok ++ List.replicate 82 'a'

/-- `"/dev/sda"`: an ordinary non-matching device path. -/
def dev_sda : List Char := ['/','d','e','v','/','s','d','a']

/-- An `access(_, W_OK)` oracle under which every path is writable. -/
def wAll : List Char → Bool := fun _ => true

/-- An `access(_, W_OK)` oracle under which no path is writable. -/
def wNone : List Char → Bool := fun _ => false

/-! ## Helper lemmas about the string primitives -/

lemma cRead_lt (s : List Char) (i : Nat) (c : Char) (h : cRead s i = some c)
    (hc : ¬(c = NUL)) : i < s.length := by
  by_cases hi : i < s.length
  · exact hi
  · exfalso
    unfold cRead at h
    rw [dif_neg hi] at h
    by_cases he : i = s.length
    · rw [if_pos he] at h
      exact hc (Option.some.inj h).symm
    · rw [if_neg he] at h
      exact Option.noConfusion h

lemma cRead_none (s : List Char) (i : Nat) (h : cRead s i = none) :
    s.length < i := by
  unfold cRead at h
  by_cases hi : i < s.length
  · rw [dif_pos hi] at h
    exact Option.noConfusion h
  · by_cases he : i = s.length
    · rw [dif_neg hi, if_pos he] at h
      exact Option.noConfusion h
    · omega

lemma cRead_get (s : List Char) (i : Nat) (c : Char) (h : cRead s i = some c)
    (hi : i < s.length) : s.get ⟨i, hi⟩ = c := by
  unfold cRead at h
  rw [dif_pos hi] at h
  exact Option.some.inj h

lemma strncmpLit_nil_true (s : List Char) (off : Nat) :
    strncmpLit s off [] = some true := rfl

lemma strncmpLit_cons (s : List Char) (off : Nat) (c : Char) (cs : List Char) :
    strncmpLit s off (c :: cs) = some true ↔
      (cRead s off = some c ∧ strncmpLit s (off + 1) cs = some true) := by
  cases hc : cRead s off with
  | none => simp [strncmpLit, hc]
  | some d =>
    by_cases hd : d = c
    · subst hd
      simp [strncmpLit, hc]
    · simp [strncmpLit, hc, hd]

lemma strncmpLit_none_cases (s : List Char) (off : Nat) (c : Char)
    (cs : List Char) (h : strncmpLit s off (c :: cs) = none) :
    cRead s off = none ∨
      (cRead s off = some c ∧ strncmpLit s (off + 1) cs = none) := by
  cases hc : cRead s off with
  | none => exact Or.inl rfl
  | some d =>
    by_cases hd : d = c
    · subst hd
      refine Or.inr ⟨rfl, ?_⟩
      simpa [strncmpLit, hc] using h
    · exfalso
      simp [strncmpLit, hc, hd] at h

lemma strncmpLit_ne_none : ∀ (lit s : List Char) (off : Nat),
    (∀ c ∈ lit, ¬(c = NUL)) → off ≤ s.length →
      ¬(strncmpLit s off lit = none)
  | [], _, _, _, _, h => by simp [strncmpLit] at h
  | c :: cs, s, off, hlit, hoff, h => by
    rcases strncmpLit_none_cases s off c cs h with h1 | ⟨h1, h2⟩
    · have := cRead_none s off h1
      omega
    · have hcn : ¬(c = NUL) := hlit c (List.mem_cons_self c cs)
      have hlt : off < s.length := cRead_lt s off c h1 hcn
      exact strncmpLit_ne_none cs s (off + 1)
        (fun x hx => hlit x (List.mem_cons_of_mem c hx)) (by omega) h2

lemma isDigitChk_none (s : List Char) (i : Nat) (h : isDigitChk s i = none) :
    cRead s i = none := by
  cases hc : cRead s i with
  | none => rfl
  | some c =>
    exfalso
    rw [isDigitChk, hc] at h
    exact Option.noConfusion h

lemma mseq_true (o r : Option Bool) :
    mseq o r = some true ↔ (o = some true ∧ r = some true) := by
  cases o with
  | none => simp [mseq]
  | some b => cases b <;> simp [mseq]

lemma mseq_none (o r : Option Bool) :
    mseq o r = none ↔ (o = none ∨ (o = some true ∧ r = none)) := by
  cases o with
  | none => simp [mseq]
  | some b => cases b <;> simp [mseq]

/-! ## Characterisation of the matcher -/

lemma stage1_true (s : List Char) :
    strncmpLit s 0 c_dev_node = some true ↔
      (cRead s 0 = some '/' ∧ cRead s 1 = some 'd' ∧ cRead s 2 = some 'e' ∧
       cRead s 3 = some 'v' ∧ cRead s 4 = some '/') := by
  simp [c_dev_node, strncmpLit_cons, strncmpLit_nil_true]

lemma stage2_true (s : List Char) :
    strncmpLit s 5 c_dev_name_1 = some true ↔
      (cRead s 5 = some 'm' ∧ cRead s 6 = some 'm' ∧ cRead s 7 = some 'c' ∧
       cRead s 8 = some 'b' ∧ cRead s 9 = some 'l' ∧ cRead s 10 = some 'k') := by
  simp [c_dev_name_1, strncmpLit_cons, strncmpLit_nil_true]

lemma stage3_true (s : List Char) :
    strncmpLit s 12 c_dev_name_2 = some true ↔
      (cRead s 12 = some 'b' ∧ cRead s 13 = some 'o' ∧ cRead s 14 = some 'o' ∧
       cRead s 15 = some 't') := by
  simp [c_dev_name_2, strncmpLit_cons, strncmpLit_nil_true]

lemma match_true_iff (s : List Char) :
    mmcblkboot_match s = some true ↔ accepts_pattern s = true := by
  unfold mmcblkboot_match accepts_pattern
  simp only [mseq_true, stage1_true, stage2_true, stage3_true,
    Bool.and_eq_true, decide_eq_true_eq]
  tauto

lemma match_none_eq (s : List Char) (h : mmcblkboot_match s = none) :
    s = dev_mmcblk_chars := by
  unfold mmcblkboot_match at h
  simp only [mseq_none] at h
  rcases h with h1 | ⟨h1, h2 | ⟨h2, h3 | ⟨h3, h4 | ⟨h4, h5⟩⟩⟩⟩
  · exact absurd h1 (strncmpLit_ne_none c_dev_node s 0 (by decide) (Nat.zero_le _))
  · obtain ⟨-, -, -, -, hc4⟩ := (stage1_true s).mp h1
    have h4lt : 4 < s.length := cRead_lt s 4 '/' hc4 (by decide)
    exact absurd h2 (strncmpLit_ne_none c_dev_name_1 s 5 (by decide) (by omega))
  · obtain ⟨hc0, hc1, hc2, hc3, hc4⟩ := (stage1_true s).mp h1
    obtain ⟨hc5, hc6, hc7, hc8, hc9, hc10⟩ := (stage2_true s).mp h2
    have h10lt : 10 < s.length := cRead_lt s 10 'k' hc10 (by decide)
    rcases strncmpLit_none_cases s 12 'b' ['o','o','t'] (by
      simpa [c_dev_name_2] using h3) with hb | ⟨hb, hrest⟩
    · have h12 : s.length < 12 := cRead_none s 12 hb
      have hlen : s.length = 11 := by omega
      apply List.ext_get
      · rw [hlen]
        rfl
      · intro i hi1 hi2
        have hi11 : i < 11 := by
          rw [hlen] at hi1
          exact hi1
        interval_cases i
        · rw [cRead_get s 0 '/' hc0 hi1]
          rfl
        · rw [cRead_get s 1 'd' hc1 hi1]
          rfl
        · rw [cRead_get s 2 'e' hc2 hi1]
          rfl
        · rw [cRead_get s 3 'v' hc3 hi1]
          rfl
        · rw [cRead_get s 4 '/' hc4 hi1]
          rfl
        · rw [cRead_get s 5 'm' hc5 hi1]
          rfl
        · rw [cRead_get s 6 'm' hc6 hi1]
          rfl
        · rw [cRead_get s 7 'c' hc7 hi1]
          rfl
        · rw [cRead_get s 8 'b' hc8 hi1]
          rfl
        · rw [cRead_get s 9 'l' hc9 hi1]
          rfl
        · rw [cRead_get s 10 'k' hc10 hi1]
          rfl
    · have h12lt : 12 < s.length := cRead_lt s 12 'b' hb (by decide)
      exact absurd hrest
        (strncmpLit_ne_none ['o','o','t'] s 13 (by decide) (by omega))
  · obtain ⟨-, -, -, hc15⟩ := (stage3_true s).mp h3
    have h15lt : 15 < s.length := cRead_lt s 15 't' hc15 (by decide)
    have := cRead_none s 11 (isDigitChk_none s 11 h4)
    omega
  · obtain ⟨-, -, -, hc15⟩ := (stage3_true s).mp h3
    have h15lt : 15 < s.length := cRead_lt s 15 't' hc15 (by decide)
    have := cRead_none s 16 (isDigitChk_none s 16 h5)
    omega

/-! ## Helper lemmas about probing and the two operations -/

lemma probe_success_prot (s : List Char) (w : List Char → Bool) (a : Bool)
    (r : Int) (p : env_protect_mmcblkboot_t)
    (h : env_protect_probe s w a = some (r, some p)) :
    r = 1 ∧
    p = ⟨FnPtr.mmcblkbootFn, FnPtr.mmcblkbootFn, stored_sysfs_path s, 0⟩ ∧
    mmcblkboot_match s = some true ∧ a = true ∧
    w (stored_sysfs_path s) = true := by
  unfold env_protect_probe mmcblkboot_create at h
  cases hm : mmcblkboot_match s with
  | none =>
    rw [hm] at h
    exact Option.noConfusion h
  | some b =>
    cases b with
    | false =>
      rw [hm] at h
      simp at h
    | true =>
      rw [hm] at h
      by_cases ha : a = false
      · rw [if_pos ha] at h
        simp at h
      · rw [if_neg ha] at h
        by_cases hw : w (stored_sysfs_path s) = false
        · rw [if_pos hw] at h
          simp at h
        · rw [if_neg hw] at h
          simp at h
          refine ⟨h.1.symm, h.2.symm, rfl, ?_, ?_⟩
          · cases a
            · exact absurd rfl ha
            · rfl
          · cases hww : w (stored_sysfs_path s)
            · exact absurd hww hw
            · rfl

lemma reprotect_keeps_prot (p : env_protect_mmcblkboot_t) (f : SysFile) :
    (mmcblkboot_reprotect p f).prot = p := by
  unfold mmcblkboot_reprotect
  split
  · split <;> rfl
  · rfl

lemma env_reprotect_keeps_prot (p : env_protect_mmcblkboot_t) (f : SysFile) :
    (env_reprotect p f).prot = p := by
  unfold env_reprotect
  cases hp : p.reprotect
  · rfl
  · exact reprotect_keeps_prot p f

lemma unprotect_inv (p : env_protect_mmcblkboot_t) (f : SysFile)
    (hp : ProtInv p) : ProtInv (mmcblkboot_unprotect p f).prot := by
  unfold mmcblkboot_unprotect
  by_cases h1 : f.canOpenRW = false
  · rw [if_pos h1]
    exact hp
  · rw [if_neg h1]
    by_cases h2 : f.readOk = true ∧ (f.byte = c_unprot_char ∨ f.byte = c_prot_char)
    · rw [if_pos h2]
      rcases h2.2 with hb | hb
      · exact Or.inr (Or.inl hb)
      · exact Or.inr (Or.inr hb)
    · rw [if_neg h2]
      exact Or.inl rfl

lemma env_unprotect_inv (p : env_protect_mmcblkboot_t) (f : SysFile)
    (hp : ProtInv p) : ProtInv (env_unprotect p f).prot := by
  unfold env_unprotect
  cases hfp : p.unprotect
  · exact hp
  · exact unprotect_inv p f hp

lemma runOps_inv (ops : List EnvOp) : ∀ (p : env_protect_mmcblkboot_t),
    ProtInv p → ProtInv (runOps p ops) := by
  induction ops with
  | nil =>
    intro p hp
    exact hp
  | cons op rest ih =>
    intro p hp
    cases op with
    | unprot f => exact ih _ (env_unprotect_inv p f hp)
    | reprot f =>
      have heq : (env_reprotect p f).prot = p := env_reprotect_keeps_prot p f
      exact ih _ (by rw [heq]; exact hp)

/-! ## Claim theorems -/

/-- C1 (counterexample): `"/dev/mmcblk0boot12"` does not match the spec's
fixed pattern (two digits at the partition-index position), yet
`env_protect_probe` returns 1 and produces a Protector when the control
path is writable — the matcher never examines characters past bare-name
position 11. -/
theorem C1_counterexample :
    spec_fixed_pattern dev_boot12 = false ∧
    env_protect_probe dev_boot12 wAll true =
      some (1, some ⟨FnPtr.mmcblkbootFn, FnPtr.mmcblkbootFn,
        stored_sysfs_path dev_boot12, 0⟩) := by
  constructor
  · decide
  · decide

/-- C1 (amended): for every device path that fails the code's in-bounds
checks — wrong `"/dev/"` prefix, wrong `"mmcblk"` token at bare positions
0-5, wrong `"boot"` token at bare positions 7-10, or a non-digit at bare
position 6 or 11 (i.e. `accepts_pattern` is false), the sole out-of-bounds
input `"/dev/mmcblk"` excluded — `env_protect_probe` returns 0 and produces
no Protector, for every filesystem and allocation state. -/
theorem C1_amended (s : List Char) (w : List Char → Bool) (a : Bool)
    (hpat : accepts_pattern s = false) (hne : ¬(s = dev_mmcblk_chars)) :
    env_protect_probe s w a = some (0, none) := by
  cases hm : mmcblkboot_match s with
  | none => exact absurd (match_none_eq s hm) hne
  | some b =>
    cases b with
    | true =>
      rw [match_true_iff s] at hm
      rw [hm] at hpat
      exact absurd hpat (by decide)
    | false =>
      unfold env_protect_probe mmcblkboot_create
      rw [hm]

/-- C1 (witness): the amended theorem applied to `"/dev/sda"`. -/
theorem C1_amended_witness :
    accepts_pattern dev_sda = false ∧ ¬(dev_sda = dev_mmcblk_chars) ∧
    env_protect_probe dev_sda wAll true = some (0, none) :=
  ⟨by decide, by decide, C1_amended dev_sda wAll true (by decide) (by decide)⟩

/-- C10: the claim that the fixed-offset accesses never index past the end
of the string is wrong: on `"/dev/mmcblk"` the comparison
`strncmp(devfile + 7, "boot", 4)` starts one character past the terminating
NUL (bare position 7, while the NUL sits at bare position 6), so the
out-of-range branch of the total embedding is reached and the whole of
`mmcblkboot_create` lands in the out-of-bounds case. -/
theorem C10_oob_read :
    mmcblkboot_match dev_mmcblk_chars = none ∧
    env_protect_probe dev_mmcblk_chars wAll true = none := by
  constructor
  · decide
  · decide

/-- C2: for an accepted device whose control file is open-able and initially
holds `'1'`: `unprotect` writes `'0'` (and only `'0'`) to the file and
archives `'1'`; a subsequent `reprotect` writes the archived `'1'` back, so
the file's byte returns to its original value. -/
theorem C2_roundtrip (p : env_protect_mmcblkboot_t) (f : SysFile)
    (h1 : f.canOpenRW = true) (h2 : f.canOpenW = true)
    (h3 : f.readOk = true) (h4 : f.byte = c_prot_char) :
    (mmcblkboot_unprotect p f).trace.writes = [c_unprot_char] ∧
    (mmcblkboot_unprotect p f).prot.current_prot = c_prot_char ∧
    (mmcblkboot_unprotect p f).file.byte = c_unprot_char ∧
    (mmcblkboot_reprotect (mmcblkboot_unprotect p f).prot
      (mmcblkboot_unprotect p f).file).trace.writes = [c_prot_char] ∧
    (mmcblkboot_reprotect (mmcblkboot_unprotect p f).prot
      (mmcblkboot_unprotect p f).file).file.byte = f.byte := by
  unfold mmcblkboot_unprotect mmcblkboot_reprotect
  simp [h1, h2, h3, h4, c_prot_char, c_unprot_char]

/-- C2 (witness): the round trip on a concrete writable file holding `'1'`. -/
theorem C2_roundtrip_witness :
    (mmcblkboot_unprotect ⟨FnPtr.mmcblkbootFn, FnPtr.mmcblkbootFn, [], 0⟩
      ⟨true, true, true, 49⟩).trace.writes = [c_unprot_char] ∧
    (mmcblkboot_unprotect ⟨FnPtr.mmcblkbootFn, FnPtr.mmcblkbootFn, [], 0⟩
      ⟨true, true, true, 49⟩).prot.current_prot = c_prot_char ∧
    (mmcblkboot_unprotect ⟨FnPtr.mmcblkbootFn, FnPtr.mmcblkbootFn, [], 0⟩
      ⟨true, true, true, 49⟩).file.byte = c_unprot_char ∧
    (mmcblkboot_reprotect
      (mmcblkboot_unprotect ⟨FnPtr.mmcblkbootFn, FnPtr.mmcblkbootFn, [], 0⟩
        ⟨true, true, true, 49⟩).prot
      (mmcblkboot_unprotect ⟨FnPtr.mmcblkbootFn, FnPtr.mmcblkbootFn, [], 0⟩
        ⟨true, true, true, 49⟩).file).trace.writes = [c_prot_char] ∧
    (mmcblkboot_reprotect
      (mmcblkboot_unprotect ⟨FnPtr.mmcblkbootFn, FnPtr.mmcblkbootFn, [], 0⟩
        ⟨true, true, true, 49⟩).prot
      (mmcblkboot_unprotect ⟨FnPtr.mmcblkbootFn, FnPtr.mmcblkbootFn, [], 0⟩
        ⟨true, true, true, 49⟩).file).file.byte =
      (SysFile.mk true true true 49).byte :=
  C2_roundtrip ⟨FnPtr.mmcblkbootFn, FnPtr.mmcblkbootFn, [], 0⟩
    ⟨true, true, true, 49⟩ rfl rfl rfl rfl

/-- C3: starting from a Protector returned by a successful probe, after any
sequence of unprotect/reprotect calls the archived value is one of: the
never-captured/unknown marker `0`, the unprotected sentinel `'0'`, or the
protected sentinel `'1'`; and at any such point `reprotect` initiates its
restoring open-and-write sequence if and only if the archived value is one
of the two recognised sentinels — never when it is `0`. -/
theorem C3_archived_invariant (s : List Char) (w : List Char → Bool)
    (a : Bool) (r : Int) (p0 : env_protect_mmcblkboot_t)
    (h : env_protect_probe s w a = some (r, some p0))
    (ops : List EnvOp) (f : SysFile) :
    ProtInv (runOps p0 ops) ∧
    ((mmcblkboot_reprotect (runOps p0 ops) f).trace.opens ≠ 0 ↔
      ((runOps p0 ops).current_prot = c_unprot_char ∨
       (runOps p0 ops).current_prot = c_prot_char)) := by
  obtain ⟨-, hp, -, -, -⟩ := probe_success_prot s w a r p0 h
  have h0 : ProtInv p0 := by
    rw [hp]
    exact Or.inl rfl
  have hInv : ProtInv (runOps p0 ops) := runOps_inv ops p0 h0
  refine ⟨hInv, ?_⟩
  unfold mmcblkboot_reprotect
  by_cases hq : (runOps p0 ops).current_prot ≠ 0
  · rw [if_pos hq]
    constructor
    · intro _
      rcases hInv with h | h | h
      · exact absurd h hq
      · exact Or.inl h
      · exact Or.inr h
    · intro _
      by_cases hw : f.canOpenW = false
      · rw [if_pos hw]
        exact Nat.one_ne_zero
      · rw [if_neg hw]
        exact Nat.one_ne_zero
  · rw [if_neg hq]
    push_neg at hq
    constructor
    · intro hopen
      exact absurd rfl hopen
    · intro hsent
      rcases hsent with h | h <;> rw [hq] at h <;>
        exact absurd h.symm (by decide)

/-- C3 (witness): the invariant theorem applied to the probe of
`"/dev/mmcblk0boot1"`, the empty operation sequence, and a concrete file. -/
theorem C3_archived_invariant_witness :
    ProtInv (runOps ⟨FnPtr.mmcblkbootFn, FnPtr.mmcblkbootFn,
      stored_sysfs_path dev_ok, 0⟩ []) ∧
    ((mmcblkboot_reprotect (runOps ⟨FnPtr.mmcblkbootFn, FnPtr.mmcblkbootFn,
        stored_sysfs_path dev_ok, 0⟩ []) ⟨true, true, true, 49⟩).trace.opens ≠ 0 ↔
      ((runOps ⟨FnPtr.mmcblkbootFn, FnPtr.mmcblkbootFn,
          stored_sysfs_path dev_ok, 0⟩ []).current_prot = c_unprot_char ∨
       (runOps ⟨FnPtr.mmcblkbootFn, FnPtr.mmcblkbootFn,
          stored_sysfs_path dev_ok, 0⟩ []).current_prot = c_prot_char)) :=
  C3_archived_invariant dev_ok wAll true 1
    ⟨FnPtr.mmcblkbootFn, FnPtr.mmcblkbootFn, stored_sysfs_path dev_ok, 0⟩
    (by decide) [] ⟨true, true, true, 49⟩

/-- C4: if the byte read during `unprotect` is neither `'0'` nor `'1'`, the
call writes nothing, leaves the control file exactly as it was, and records
the archived state as unknown (`0`); a subsequent `reprotect` on that
Protector performs no open and no write and leaves the control file exactly
as `unprotect` left it. -/
theorem C4_invalid_byte (p : env_protect_mmcblkboot_t) (f : SysFile)
    (h1 : f.canOpenRW = true) (_h2 : f.readOk = true)
    (h3 : ¬(f.byte = c_unprot_char ∨ f.byte = c_prot_char)) :
    (mmcblkboot_unprotect p f).trace.writes = [] ∧
    (mmcblkboot_unprotect p f).file = f ∧
    (mmcblkboot_unprotect p f).prot.current_prot = 0 ∧
    (mmcblkboot_reprotect (mmcblkboot_unprotect p f).prot
      (mmcblkboot_unprotect p f).file).trace = ⟨0, []⟩ ∧
    (mmcblkboot_reprotect (mmcblkboot_unprotect p f).prot
      (mmcblkboot_unprotect p f).file).file = f := by
  unfold mmcblkboot_unprotect mmcblkboot_reprotect
  simp [h1, h3]

/-- C4 (witness): a control file holding the corrupt byte `'X'` (88). -/
theorem C4_invalid_byte_witness :
    (mmcblkboot_unprotect ⟨FnPtr.mmcblkbootFn, FnPtr.mmcblkbootFn, [], 0⟩
      ⟨true, true, true, 88⟩).trace.writes = [] ∧
    (mmcblkboot_unprotect ⟨FnPtr.mmcblkbootFn, FnPtr.mmcblkbootFn, [], 0⟩
      ⟨true, true, true, 88⟩).file = ⟨true, true, true, 88⟩ ∧
    (mmcblkboot_unprotect ⟨FnPtr.mmcblkbootFn, FnPtr.mmcblkbootFn, [], 0⟩
      ⟨true, true, true, 88⟩).prot.current_prot = 0 ∧
    (mmcblkboot_reprotect
      (mmcblkboot_unprotect ⟨FnPtr.mmcblkbootFn, FnPtr.mmcblkbootFn, [], 0⟩
        ⟨true, true, true, 88⟩).prot
      (mmcblkboot_unprotect ⟨FnPtr.mmcblkbootFn, FnPtr.mmcblkbootFn, [], 0⟩
        ⟨true, true, true, 88⟩).file).trace = ⟨0, []⟩ ∧
    (mmcblkboot_reprotect
      (mmcblkboot_unprotect ⟨FnPtr.mmcblkbootFn, FnPtr.mmcblkbootFn, [], 0⟩
        ⟨true, true, true, 88⟩).prot
      (mmcblkboot_unprotect ⟨FnPtr.mmcblkbootFn, FnPtr.mmcblkbootFn, [], 0⟩
        ⟨true, true, true, 88⟩).file).file = ⟨true, true, true, 88⟩ :=
  C4_invalid_byte ⟨FnPtr.mmcblkbootFn, FnPtr.mmcblkbootFn, [], 0⟩
    ⟨true, true, true, 88⟩ rfl rfl (by decide)

/-- C5: on a Protector freshly returned by a successful probe (archived
state still the never-captured marker), `reprotect` is a no-op: it attempts
no open and no write, and both the control file and the Protector are left
unchanged. -/
theorem C5_fresh_reprotect (s : List Char) (w : List Char → Bool) (a : Bool)
    (r : Int) (p : env_protect_mmcblkboot_t) (f : SysFile)
    (h : env_protect_probe s w a = some (r, some p)) :
    (env_reprotect p f).trace = ⟨0, []⟩ ∧
    (env_reprotect p f).file = f ∧
    (env_reprotect p f).prot = p := by
  obtain ⟨-, hp, -, -, -⟩ := probe_success_prot s w a r p h
  subst hp
  unfold env_reprotect mmcblkboot_reprotect
  simp

/-- C5 (witness): the freshly probed Protector for `"/dev/mmcblk0boot1"`. -/
theorem C5_fresh_reprotect_witness :
    (env_reprotect ⟨FnPtr.mmcblkbootFn, FnPtr.mmcblkbootFn,
        stored_sysfs_path dev_ok, 0⟩ ⟨true, true, true, 49⟩).trace = ⟨0, []⟩ ∧
    (env_reprotect ⟨FnPtr.mmcblkbootFn, FnPtr.mmcblkbootFn,
        stored_sysfs_path dev_ok, 0⟩ ⟨true, true, true, 49⟩).file =
      ⟨true, true, true, 49⟩ ∧
    (env_reprotect ⟨FnPtr.mmcblkbootFn, FnPtr.mmcblkbootFn,
        stored_sysfs_path dev_ok, 0⟩ ⟨true, true, true, 49⟩).prot =
      ⟨FnPtr.mmcblkbootFn, FnPtr.mmcblkbootFn, stored_sysfs_path dev_ok, 0⟩ :=
  C5_fresh_reprotect dev_ok wAll true 1
    ⟨FnPtr.mmcblkbootFn, FnPtr.mmcblkbootFn, stored_sysfs_path dev_ok, 0⟩
    ⟨true, true, true, 49⟩ (by decide)

/-- C6: transport failures degrade silently.  (a) If `open` fails during
`unprotect` on a freshly probed Protector, that call changes nothing and
captures no state, and a later `reprotect` is a no-op (no open, no write).
(b) A short read (fewer than one byte) is treated like an unknown state:
nothing is written, no state is captured, and a later `reprotect` is a
no-op.  (c) If `open` fails during `reprotect`, the restore is silently
skipped: nothing is written and the control file is unchanged. -/
theorem C6_transport_failures (s : List Char) (w : List Char → Bool)
    (a : Bool) (r : Int) (p q : env_protect_mmcblkboot_t)
    (f1 g1 k1 : SysFile)
    (hp : env_protect_probe s w a = some (r, some p))
    (hf : f1.canOpenRW = false)
    (hg1 : g1.canOpenRW = true) (hg2 : g1.readOk = false)
    (hq : ¬(q.current_prot = 0)) (hk : k1.canOpenW = false) :
    ((mmcblkboot_unprotect p f1).prot = p ∧
     (mmcblkboot_unprotect p f1).file = f1 ∧
     (mmcblkboot_unprotect p f1).trace.writes = [] ∧
     (mmcblkboot_reprotect (mmcblkboot_unprotect p f1).prot f1).trace =
       ⟨0, []⟩) ∧
    ((mmcblkboot_unprotect p g1).prot.current_prot = 0 ∧
     (mmcblkboot_unprotect p g1).file = g1 ∧
     (mmcblkboot_unprotect p g1).trace.writes = [] ∧
     (mmcblkboot_reprotect (mmcblkboot_unprotect p g1).prot g1).trace =
       ⟨0, []⟩) ∧
    ((mmcblkboot_reprotect q k1).trace.writes = [] ∧
     (mmcblkboot_reprotect q k1).file = k1 ∧
     (mmcblkboot_reprotect q k1).prot = q) := by
  obtain ⟨-, hps, -, -, -⟩ := probe_success_prot s w a r p hp
  refine ⟨?_, ?_, ?_⟩
  · unfold mmcblkboot_unprotect mmcblkboot_reprotect
    simp [hf, hps]
  · unfold mmcblkboot_unprotect mmcblkboot_reprotect
    simp [hg1, hg2]
  · unfold mmcblkboot_reprotect
    simp [hq, hk]

/-- C6 (witness): concrete instances of all three failure scenarios. -/
theorem C6_transport_failures_witness :
    ((mmcblkboot_unprotect ⟨FnPtr.mmcblkbootFn, FnPtr.mmcblkbootFn,
        stored_sysfs_path dev_ok, 0⟩ ⟨false, true, true, 49⟩).prot =
       ⟨FnPtr.mmcblkbootFn, FnPtr.mmcblkbootFn, stored_sysfs_path dev_ok, 0⟩ ∧
     (mmcblkboot_unprotect ⟨FnPtr.mmcblkbootFn, FnPtr.mmcblkbootFn,
        stored_sysfs_path dev_ok, 0⟩ ⟨false, true, true, 49⟩).file =
       ⟨false, true, true, 49⟩ ∧
     (mmcblkboot_unprotect ⟨FnPtr.mmcblkbootFn, FnPtr.mmcblkbootFn,
        stored_sysfs_path dev_ok, 0⟩ ⟨false, true, true, 49⟩).trace.writes = [] ∧
     (mmcblkboot_reprotect (mmcblkboot_unprotect ⟨FnPtr.mmcblkbootFn,
        FnPtr.mmcblkbootFn, stored_sysfs_path dev_ok, 0⟩
        ⟨false, true, true, 49⟩).prot ⟨false, true, true, 49⟩).trace =
       ⟨0, []⟩) ∧
    ((mmcblkboot_unprotect ⟨FnPtr.mmcblkbootFn, FnPtr.mmcblkbootFn,
        stored_sysfs_path dev_ok, 0⟩ ⟨true, true, false, 49⟩).prot.current_prot
       = 0 ∧
     (mmcblkboot_unprotect ⟨FnPtr.mmcblkbootFn, FnPtr.mmcblkbootFn,
        stored_sysfs_path dev_ok, 0⟩ ⟨true, true, false, 49⟩).file =
       ⟨true, true, false, 49⟩ ∧
     (mmcblkboot_unprotect ⟨FnPtr.mmcblkbootFn, FnPtr.mmcblkbootFn,
        stored_sysfs_path dev_ok, 0⟩ ⟨true, true, false, 49⟩).trace.writes = [] ∧
     (mmcblkboot_reprotect (mmcblkboot_unprotect ⟨FnPtr.mmcblkbootFn,
        FnPtr.mmcblkbootFn, stored_sysfs_path dev_ok, 0⟩
        ⟨true, true, false, 49⟩).prot ⟨true, true, false, 49⟩).trace =
       ⟨0, []⟩) ∧
    ((mmcblkboot_reprotect ⟨FnPtr.mmcblkbootFn, FnPtr.mmcblkbootFn, [], 49⟩
        ⟨true, false, true, 48⟩).trace.writes = [] ∧
     (mmcblkboot_reprotect ⟨FnPtr.mmcblkbootFn, FnPtr.mmcblkbootFn, [], 49⟩
        ⟨true, false, true, 48⟩).file = ⟨true, false, true, 48⟩ ∧
     (mmcblkboot_reprotect ⟨FnPtr.mmcblkbootFn, FnPtr.mmcblkbootFn, [], 49⟩
        ⟨true, false, true, 48⟩).prot =
       ⟨FnPtr.mmcblkbootFn, FnPtr.mmcblkbootFn, [], 49⟩) :=
  C6_transport_failures dev_ok wAll true 1
    ⟨FnPtr.mmcblkbootFn, FnPtr.mmcblkbootFn, stored_sysfs_path dev_ok, 0⟩
    ⟨FnPtr.mmcblkbootFn, FnPtr.mmcblkbootFn, [], 49⟩
    ⟨false, true, true, 49⟩ ⟨true, true, false, 49⟩ ⟨true, false, true, 48⟩
    (by decide) rfl rfl rfl (by decide) rfl

/-- C7: probing surfaces a negative result only as `-ENOMEM` on allocation
failure; and for any device path the matcher accepts, if allocation
succeeds but the control path is not writable (or absent), probe returns
0 ("no match"), not an error. -/
theorem C7_error_policy (s : List Char) (w : List Char → Bool) (a : Bool)
    (r : Int × Option env_protect_mmcblkboot_t)
    (h : env_protect_probe s w a = some r) :
    (r.1 < 0 → (a = false ∧ r.1 = -ENOMEM)) ∧
    (mmcblkboot_match s = some true → a = true →
      w (stored_sysfs_path s) = false → r = (0, none)) := by
  unfold env_protect_probe mmcblkboot_create at h
  cases hm : mmcblkboot_match s with
  | none =>
    rw [hm] at h
    exact Option.noConfusion h
  | some b =>
    cases b with
    | false =>
      rw [hm] at h
      have hr : r = (0, none) := (Option.some.inj h).symm
      subst hr
      constructor
      · intro hneg
        exact absurd hneg (by decide)
      · intro _ _ _
        rfl
    | true =>
      rw [hm] at h
      by_cases ha : a = false
      · rw [if_pos ha] at h
        have hr : r = (-ENOMEM, none) := (Option.some.inj h).symm
        subst hr
        constructor
        · intro _
          exact ⟨ha, rfl⟩
        · intro _ hat _
          rw [hat] at ha
          exact absurd ha (by decide)
      · rw [if_neg ha] at h
        by_cases hw : w (stored_sysfs_path s) = false
        · rw [if_pos hw] at h
          have hr : r = (0, none) := (Option.some.inj h).symm
          subst hr
          constructor
          · intro hneg
            exact absurd hneg (by decide)
          · intro _ _ _
            rfl
        · rw [if_neg hw] at h
          have hr : r = (1, some ⟨FnPtr.mmcblkbootFn, FnPtr.mmcblkbootFn,
              stored_sysfs_path s, 0⟩) := (Option.some.inj h).symm
          subst hr
          constructor
          · intro hneg
            simp at hneg
          · intro _ _ hwf
            exact absurd hwf hw

/-- C7 (witness): probing `"/dev/mmcblk0boot1"` with a non-writable control
path and successful allocation yields 0, not an error. -/
theorem C7_error_policy_witness :
    ((((0 : Int), (none : Option env_protect_mmcblkboot_t)).1 < 0 →
      ((true = false) ∧ ((0 : Int), (none : Option env_protect_mmcblkboot_t)).1
        = -ENOMEM)) ∧
     (mmcblkboot_match dev_ok = some true → true = true →
      wNone (stored_sysfs_path dev_ok) = false →
      ((0 : Int), (none : Option env_protect_mmcblkboot_t)) = (0, none))) :=
  C7_error_policy dev_ok wNone true (0, none) (by decide)

/-- C8 (counterexample): `dev_long` (a 99-character matching device path)
is accepted by the matcher and probe returns a Protector, but the stored
control path is NOT the concatenation of `"/sys/class/block/"`, the bare
device name, and `"/force_ro"`: `snprintf` truncates it to
`SYSFS_PATH_MAX - 1 = 119` characters, while the concatenation has 120. -/
theorem C8_counterexample :
    env_protect_probe dev_long wAll true =
      some (1, some ⟨FnPtr.mmcblkbootFn, FnPtr.mmcblkbootFn,
        stored_sysfs_path dev_long, 0⟩) ∧
    ¬(stored_sysfs_path dev_long = full_sysfs_path dev_long) := by
  constructor
  · decide
  · decide

/-- C8 (amended): for every device path accepted by the matcher and turned
into a Protector, the stored control path is the first
`SYSFS_PATH_MAX - 1 = 119` characters of the concatenation
`"/sys/class/block/" ++ bare-name ++ "/force_ro"`; whenever that
concatenation is at most 119 characters long (as for every real
`mmcblkNbootM` name, e.g. `"/dev/mmcblk0boot1"`), it is stored in full. -/
theorem C8_amended (s : List Char) (w : List Char → Bool) (a : Bool)
    (r : Int) (p : env_protect_mmcblkboot_t)
    (h : env_protect_probe s w a = some (r, some p)) :
    p.sysfs_path = (full_sysfs_path s).take (SYSFS_PATH_MAX - 1) ∧
    ((full_sysfs_path s).length ≤ SYSFS_PATH_MAX - 1 →
      p.sysfs_path = full_sysfs_path s) := by
  obtain ⟨-, hp, -, -, -⟩ := probe_success_prot s w a r p h
  subst hp
  constructor
  · rfl
  · intro hlen
    exact List.take_of_length_le hlen

/-- C8 (witness): the amended statement at `"/dev/mmcblk0boot1"`, whose
full concatenation `"/sys/class/block/mmcblk0boot1/force_ro"` (38 chars)
fits and is stored exactly. -/
theorem C8_amended_witness :
    ((⟨FnPtr.mmcblkbootFn, FnPtr.mmcblkbootFn, stored_sysfs_path dev_ok, 0⟩ :
        env_protect_mmcblkboot_t).sysfs_path =
      (full_sysfs_path dev_ok).take (SYSFS_PATH_MAX - 1) ∧
     ((full_sysfs_path dev_ok).length ≤ SYSFS_PATH_MAX - 1 →
      (⟨FnPtr.mmcblkbootFn, FnPtr.mmcblkbootFn, stored_sysfs_path dev_ok, 0⟩ :
          env_protect_mmcblkboot_t).sysfs_path = full_sysfs_path dev_ok)) :=
  C8_amended dev_ok wAll true 1
    ⟨FnPtr.mmcblkbootFn, FnPtr.mmcblkbootFn, stored_sysfs_path dev_ok, 0⟩
    (by decide)

/-- C9: `reprotect` reads but never mutates the Protector — whatever the
outcome (guard skip, open failure, or write), the stored control path, the
archived byte and both dispatch function pointers are unchanged, through
the `env_reprotect` dispatcher as well; and `unprotect` can change only the
archived byte, never the path or the function pointers. -/
theorem C9_reprotect_frame (p : env_protect_mmcblkboot_t) (f : SysFile) :
    (mmcblkboot_reprotect p f).prot = p ∧
    (env_reprotect p f).prot = p ∧
    (mmcblkboot_unprotect p f).prot.sysfs_path = p.sysfs_path ∧
    (mmcblkboot_unprotect p f).prot.unprotect = p.unprotect ∧
    (mmcblkboot_unprotect p f).prot.reprotect = p.reprotect := by
  refine ⟨reprotect_keeps_prot p f, env_reprotect_keeps_prot p f, ?_, ?_, ?_⟩
  all_goals
    unfold mmcblkboot_unprotect
    split
    · rfl
    · split <;> rfl
